import Mathlib

/-
Verification of the bounded-buffer monitor of src/synchronization/monitor.c
(the richer variant of the file: error enum, waiting-thread list, performance
counters).  The C code is embedded shallowly:

* the global `monitor_t monitor` becomes an explicit state value threaded
  through the operations;
* the outcomes of the pthread primitives (mutex lock success, the `ret`
  value with which the condition-wait loop exits, the measured wait
  duration) are inputs of each call, collected in `call_env`;
* C `int` fields (`count`, `in`, `out`, `waiting_count`) are `Int`;
  the `unsigned long` counters are `Nat` (they are only ever incremented,
  so 64-bit wraparound is unreachable in any trace considered here);
  the C `double avg_wait_time` is modelled with exact rational arithmetic;
* the wall-clock reads (`clock_gettime`, `time`) and the log output of
  `printf` are not modelled: `check_deadlock` and `print_monitor_stats`
  only read state and print, so they have no effect on the embedded state;
* `monitor_remove`'s out-parameter `int *item` becomes an `Option Int`
  result component, and the `item == NULL` case a boolean input.

The condition-wait loop `while (count == BUFFER_SIZE && ret == 0) ...` can
only be left with `ret == 0` when the guard on `count` has become false, so
each call is modelled atomically: if the buffer condition holds at entry the
loop exits with the environment's `wait_ret`, otherwise no wait happens and
`ret` stays 0.  The side condition "`wait_ret` is nonzero when the buffer
condition held" (`op_wf` below) is exactly the loop-exit condition of the C
code.
-/

set_option linter.unusedVariables false

/-- Capacity of the circular buffer, `#define BUFFER_SIZE 10`. -/
def BUFFER_SIZE : Int := 10

/-- Error codes of `monitor_error_t` in src/synchronization/monitor.c. -/
inductive monitor_error_t where
  | MONITOR_SUCCESS
  | MONITOR_ERROR_MUTEX_INIT
  | MONITOR_ERROR_COND_INIT
  | MONITOR_ERROR_MUTEX_LOCK
  | MONITOR_ERROR_NULL_POINTER
  | MONITOR_ERROR_TIMEOUT
deriving DecidableEq, Repr

/-- The integer value each enumerator has in the C enum. -/
def monitor_error_t.code : monitor_error_t → Int
  | .MONITOR_SUCCESS => 0
  | .MONITOR_ERROR_MUTEX_INIT => -1
  | .MONITOR_ERROR_COND_INIT => -2
  | .MONITOR_ERROR_MUTEX_LOCK => -3
  | .MONITOR_ERROR_NULL_POINTER => -4
  | .MONITOR_ERROR_TIMEOUT => -5

/-- One record of the waiting-thread list (`struct thread_info`).  The
`next` pointer of the C struct is the list structure itself. -/
structure thread_info_t where
  id : Nat
  last_active : Int
  is_waiting : Bool
  priority : Int
  inherited_priority : Int
deriving DecidableEq, Repr

/-- The monitor state (`monitor_t`).  The C field `in` is called `in_`
here because `in` is reserved in Lean.  The pthread primitive handles and
`start_time` carry no state visible to the embedded operations and are
omitted. -/
structure monitor_t where
  buffer : List Int
  count : Int
  in_ : Int
  out : Int
  initialized : Bool
  waiting_threads : List thread_info_t
  waiting_count : Int
  deadlock_threshold : Int
  owner : Option thread_info_t
  total_insertions : Nat
  total_removals : Nat
  total_timeouts : Nat
  avg_wait_time : ℚ
  priority_inversions : Nat
  priority_inheritances : Nat
deriving DecidableEq, Repr

/-- The zero-initialized global `monitor_t monitor` (static storage). -/
def monitor_zero : monitor_t :=
  { buffer := List.replicate 10 0
    count := 0
    in_ := 0
    out := 0
    initialized := false
    waiting_threads := []
    waiting_count := 0
    deadlock_threshold := 0
    owner := none
    total_insertions := 0
    total_removals := 0
    total_timeouts := 0
    avg_wait_time := 0
    priority_inversions := 0
    priority_inheritances := 0 }

/-- `monitor_init`.  The three booleans are the success of
`pthread_mutex_init`, `pthread_cond_init(&not_full)` and
`pthread_cond_init(&not_empty)`. -/
def monitor_init (mutex_ok cond_full_ok cond_empty_ok : Bool)
    (m : monitor_t) : monitor_error_t × monitor_t :=
  let m1 := { m with
    count := 0
    in_ := 0
    out := 0
    initialized := false
    waiting_threads := []
    waiting_count := 0
    deadlock_threshold := 5
    total_insertions := 0
    total_removals := 0
    total_timeouts := 0
    avg_wait_time := 0 }
  if !mutex_ok then
    (.MONITOR_ERROR_MUTEX_INIT, m1)
  else if !cond_full_ok then
    (.MONITOR_ERROR_COND_INIT, m1)
  else if !cond_empty_ok then
    (.MONITOR_ERROR_COND_INIT, m1)
  else
    (.MONITOR_SUCCESS, { m1 with initialized := true })

/-- `add_waiting_thread`: pushes a fresh record for the calling thread in
front of the list; the priority-inheritance check compares the new
record's priority (always 0) with the owner's. -/
def add_waiting_thread (tid : Nat) (now : Int) (m : monitor_t) : monitor_t :=
  let new_thread : thread_info_t :=
    { id := tid, last_active := now, is_waiting := true
      priority := 0, inherited_priority := 0 }
  let m1 :=
    match m.owner with
    | some o =>
        if new_thread.priority > o.priority then
          { m with
              owner := some { o with inherited_priority := new_thread.priority }
              priority_inheritances := m.priority_inheritances + 1 }
        else m
    | none => m
  { m1 with
      waiting_threads := new_thread :: m1.waiting_threads
      waiting_count := m1.waiting_count + 1 }

/-- Helper for `remove_waiting_thread`: drops the first record whose `id`
matches and reports whether one was found. -/
def remove_first (tid : Nat) : List thread_info_t → List thread_info_t × Bool
  | [] => ([], false)
  | t :: ts =>
      if t.id = tid then (ts, true)
      else
        let p := remove_first tid ts
        (t :: p.1, p.2)

/-- `remove_waiting_thread`: unlinks and frees the first record of the
calling thread; `waiting_count` is decremented only when a record was
found. -/
def remove_waiting_thread (tid : Nat) (m : monitor_t) : monitor_t :=
  let p := remove_first tid m.waiting_threads
  if p.2 then
    { m with waiting_threads := p.1, waiting_count := m.waiting_count - 1 }
  else m

/-- The effect `add_waiting_thread` has on the fields other than the
waiting list itself (the priority-inheritance branch, with the new
thread's priority fixed at 0 by the code). -/
def pi_adjust (m : monitor_t) : monitor_t :=
  match m.owner with
  | some o =>
      if (0 : Int) > o.priority then
        { m with
            owner := some { o with inherited_priority := 0 }
            priority_inheritances := m.priority_inheritances + 1 }
      else m
  | none => m

/-- Inputs of one `monitor_insert` / `monitor_remove` call that the code
obtains from the environment: the calling thread, the current time, the
outcome of `pthread_mutex_lock`, the `ret` value with which the
condition-wait loop exits when the buffer condition held at entry, and
the wait duration the code measures. -/
structure call_env where
  tid : Nat
  now : Int
  lock_ok : Bool
  wait_ret : Int
  wait_time : ℚ
deriving DecidableEq, Repr

/-- `monitor_insert`. -/
def monitor_insert (e : call_env) (item : Int) (m : monitor_t) :
    monitor_error_t × monitor_t :=
  if !m.initialized then
    (.MONITOR_ERROR_MUTEX_INIT, m)
  else if !e.lock_ok then
    (.MONITOR_ERROR_MUTEX_LOCK, m)
  else
    let m1 := add_waiting_thread e.tid e.now m
    -- Wait while buffer is full (check_deadlock only logs).
    let ret : Int := if m1.count = BUFFER_SIZE then e.wait_ret else 0
    let m2 := remove_waiting_thread e.tid m1
    if ret = 0 then
      let m3 := { m2 with
        buffer := m2.buffer.set m2.in_.toNat item
        in_ := (m2.in_ + 1) % BUFFER_SIZE
        count := m2.count + 1
        total_insertions := m2.total_insertions + 1 }
      let m4 := { m3 with
        avg_wait_time :=
          (m3.avg_wait_time * ((m3.total_insertions : ℚ) - 1) + e.wait_time) /
            (m3.total_insertions : ℚ) }
      (.MONITOR_SUCCESS, m4)
    else
      (.MONITOR_ERROR_TIMEOUT, { m2 with total_timeouts := m2.total_timeouts + 1 })

/-- `monitor_remove`.  `item_null` is whether the caller passed a NULL
`item` pointer; the second component of the result is what got written
through the pointer. -/
def monitor_remove (e : call_env) (item_null : Bool) (m : monitor_t) :
    monitor_error_t × Option Int × monitor_t :=
  if !m.initialized then
    (.MONITOR_ERROR_MUTEX_INIT, none, m)
  else if item_null then
    (.MONITOR_ERROR_NULL_POINTER, none, m)
  else if !e.lock_ok then
    (.MONITOR_ERROR_MUTEX_LOCK, none, m)
  else
    let m1 := add_waiting_thread e.tid e.now m
    -- Wait while buffer is empty (check_deadlock only logs).
    let ret : Int := if m1.count = 0 then e.wait_ret else 0
    let m2 := remove_waiting_thread e.tid m1
    if ret = 0 then
      let x := m2.buffer.getD m2.out.toNat 0
      let m3 := { m2 with
        out := (m2.out + 1) % BUFFER_SIZE
        count := m2.count - 1
        total_removals := m2.total_removals + 1 }
      let m4 := { m3 with
        avg_wait_time :=
          (m3.avg_wait_time * ((m3.total_removals : ℚ) - 1) + e.wait_time) /
            (m3.total_removals : ℚ) }
      (.MONITOR_SUCCESS, some x, m4)
    else
      (.MONITOR_ERROR_TIMEOUT, none,
        { m2 with total_timeouts := m2.total_timeouts + 1 })

/-- `monitor_destroy`: on an initialized monitor it prints the final
statistics (no state effect), frees the waiting-thread list and marks the
monitor uninitialized; it touches neither the buffer nor the counters,
and not `waiting_count` either. -/
def monitor_destroy (m : monitor_t) : monitor_t :=
  if !m.initialized then m
  else { m with waiting_threads := [], initialized := false }

/-- The state reached by the program's own initialization: the
zero-initialized global after a `monitor_init` whose primitives all
succeed. -/
def init_state : monitor_t := (monitor_init true true true monitor_zero).2

/-- A benign call environment: lock succeeds, the wait (if one happens)
ends with ETIMEDOUT, zero measured wait duration. -/
def env0 : call_env :=
  { tid := 0, now := 0, lock_ok := true, wait_ret := 110, wait_time := 0 }

/-! ### Basic rewriting lemmas for the operations -/

theorem pi_adjust_buffer (m : monitor_t) : (pi_adjust m).buffer = m.buffer := by
  unfold pi_adjust; repeat' split
  all_goals rfl

theorem pi_adjust_count (m : monitor_t) : (pi_adjust m).count = m.count := by
  unfold pi_adjust; repeat' split
  all_goals rfl

theorem pi_adjust_in (m : monitor_t) : (pi_adjust m).in_ = m.in_ := by
  unfold pi_adjust; repeat' split
  all_goals rfl

theorem pi_adjust_out (m : monitor_t) : (pi_adjust m).out = m.out := by
  unfold pi_adjust; repeat' split
  all_goals rfl

theorem pi_adjust_initialized (m : monitor_t) :
    (pi_adjust m).initialized = m.initialized := by
  unfold pi_adjust; repeat' split
  all_goals rfl

theorem pi_adjust_waiting_threads (m : monitor_t) :
    (pi_adjust m).waiting_threads = m.waiting_threads := by
  unfold pi_adjust; repeat' split
  all_goals rfl

theorem pi_adjust_waiting_count (m : monitor_t) :
    (pi_adjust m).waiting_count = m.waiting_count := by
  unfold pi_adjust; repeat' split
  all_goals rfl

theorem pi_adjust_total_insertions (m : monitor_t) :
    (pi_adjust m).total_insertions = m.total_insertions := by
  unfold pi_adjust; repeat' split
  all_goals rfl

theorem pi_adjust_total_removals (m : monitor_t) :
    (pi_adjust m).total_removals = m.total_removals := by
  unfold pi_adjust; repeat' split
  all_goals rfl

theorem pi_adjust_total_timeouts (m : monitor_t) :
    (pi_adjust m).total_timeouts = m.total_timeouts := by
  unfold pi_adjust; repeat' split
  all_goals rfl

theorem pi_adjust_avg_wait_time (m : monitor_t) :
    (pi_adjust m).avg_wait_time = m.avg_wait_time := by
  unfold pi_adjust; repeat' split
  all_goals rfl

/-- `add_waiting_thread` is exactly: apply the priority-inheritance
bookkeeping, push the fresh record, bump `waiting_count`. -/
theorem add_waiting_thread_eq (tid : Nat) (now : Int) (m : monitor_t) :
    add_waiting_thread tid now m =
      { pi_adjust m with
          waiting_threads :=
            { id := tid, last_active := now, is_waiting := true
              priority := 0, inherited_priority := 0 } :: m.waiting_threads
          waiting_count := m.waiting_count + 1 } := by
  unfold add_waiting_thread pi_adjust
  cases hm : m.owner with
  | none => rfl
  | some o =>
      by_cases hp : (0 : Int) > o.priority
      · simp [hp]
      · simp [hp]

theorem add_waiting_thread_count (tid : Nat) (now : Int) (m : monitor_t) :
    (add_waiting_thread tid now m).count = m.count := by
  rw [add_waiting_thread_eq]
  exact pi_adjust_count m

/-- Removing the thread that was just pushed restores the state exactly. -/
theorem remove_after_push (tid : Nat) (nt : thread_info_t) (P : monitor_t)
    (h : nt.id = tid) :
    remove_waiting_thread tid
      { P with waiting_threads := nt :: P.waiting_threads
               waiting_count := P.waiting_count + 1 } = P := by
  unfold remove_waiting_thread
  simp [remove_first, h]

/-- A call that registers itself and deregisters before leaving restores
the waiting list exactly; only the priority-inheritance bookkeeping
(`owner`, `priority_inheritances`) can differ. -/
theorem add_then_remove (tid : Nat) (now : Int) (m : monitor_t) :
    remove_waiting_thread tid (add_waiting_thread tid now m) = pi_adjust m := by
  rw [add_waiting_thread_eq]
  have h1 := pi_adjust_waiting_threads m
  have h2 := pi_adjust_waiting_count m
  rw [← h1, ← h2]
  exact remove_after_push tid _ (pi_adjust m) rfl

theorem insert_eq_of_not_initialized (e : call_env) (x : Int) (m : monitor_t)
    (h : m.initialized = false) :
    monitor_insert e x m = (.MONITOR_ERROR_MUTEX_INIT, m) := by
  simp [monitor_insert, h]

theorem insert_eq_of_lock_fail (e : call_env) (x : Int) (m : monitor_t)
    (hi : m.initialized = true) (hl : e.lock_ok = false) :
    monitor_insert e x m = (.MONITOR_ERROR_MUTEX_LOCK, m) := by
  simp [monitor_insert, hi, hl]

theorem insert_eq_of_success (e : call_env) (x : Int) (m : monitor_t)
    (hi : m.initialized = true) (hl : e.lock_ok = true)
    (hc : m.count ≠ BUFFER_SIZE) :
    monitor_insert e x m =
      (.MONITOR_SUCCESS,
        { pi_adjust m with
            buffer := m.buffer.set m.in_.toNat x
            in_ := (m.in_ + 1) % BUFFER_SIZE
            count := m.count + 1
            total_insertions := m.total_insertions + 1
            avg_wait_time :=
              (m.avg_wait_time * ((m.total_insertions : ℚ) + 1 - 1) +
                  e.wait_time) / ((m.total_insertions : ℚ) + 1) }) := by
  simp only [monitor_insert, hi, hl, Bool.not_true, Bool.false_eq_true,
    if_false, add_then_remove, add_waiting_thread_count, hc, if_neg hc,
    if_pos rfl, pi_adjust_buffer, pi_adjust_count, pi_adjust_in,
    pi_adjust_total_insertions, pi_adjust_avg_wait_time]
  push_cast
  ring_nf

theorem insert_eq_of_timeout (e : call_env) (x : Int) (m : monitor_t)
    (hi : m.initialized = true) (hl : e.lock_ok = true)
    (hc : m.count = BUFFER_SIZE) (hr : e.wait_ret ≠ 0) :
    monitor_insert e x m =
      (.MONITOR_ERROR_TIMEOUT,
        { pi_adjust m with total_timeouts := m.total_timeouts + 1 }) := by
  simp only [monitor_insert, hi, hl, Bool.not_true, Bool.false_eq_true,
    if_false, add_then_remove, add_waiting_thread_count, hc,
    pi_adjust_total_timeouts]
  simp [hr]

theorem remove_eq_of_not_initialized (e : call_env) (inull : Bool)
    (m : monitor_t) (h : m.initialized = false) :
    monitor_remove e inull m = (.MONITOR_ERROR_MUTEX_INIT, none, m) := by
  simp [monitor_remove, h]

theorem remove_eq_of_null (e : call_env) (m : monitor_t)
    (hi : m.initialized = true) :
    monitor_remove e true m = (.MONITOR_ERROR_NULL_POINTER, none, m) := by
  simp [monitor_remove, hi]

theorem remove_eq_of_lock_fail (e : call_env) (m : monitor_t)
    (hi : m.initialized = true) (hl : e.lock_ok = false) :
    monitor_remove e false m = (.MONITOR_ERROR_MUTEX_LOCK, none, m) := by
  simp [monitor_remove, hi, hl]

theorem remove_eq_of_success (e : call_env) (m : monitor_t)
    (hi : m.initialized = true) (hl : e.lock_ok = true)
    (hc : m.count ≠ 0) :
    monitor_remove e false m =
      (.MONITOR_SUCCESS, some (m.buffer.getD m.out.toNat 0),
        { pi_adjust m with
            out := (m.out + 1) % BUFFER_SIZE
            count := m.count - 1
            total_removals := m.total_removals + 1
            avg_wait_time :=
              (m.avg_wait_time * ((m.total_removals : ℚ) + 1 - 1) +
                  e.wait_time) / ((m.total_removals : ℚ) + 1) }) := by
  simp only [monitor_remove, hi, hl, Bool.not_true, Bool.false_eq_true,
    if_false, add_then_remove, add_waiting_thread_count, if_neg hc,
    if_pos rfl, pi_adjust_buffer, pi_adjust_count, pi_adjust_out,
    pi_adjust_total_removals, pi_adjust_avg_wait_time]
  push_cast
  ring_nf

theorem remove_eq_of_timeout (e : call_env) (m : monitor_t)
    (hi : m.initialized = true) (hl : e.lock_ok = true)
    (hc : m.count = 0) (hr : e.wait_ret ≠ 0) :
    monitor_remove e false m =
      (.MONITOR_ERROR_TIMEOUT, none,
        { pi_adjust m with total_timeouts := m.total_timeouts + 1 }) := by
  simp only [monitor_remove, hi, hl, Bool.not_true, Bool.false_eq_true,
    if_false, add_then_remove, add_waiting_thread_count, hc,
    pi_adjust_total_timeouts]
  simp [hr]

theorem monitor_destroy_buffer (m : monitor_t) :
    (monitor_destroy m).buffer = m.buffer := by
  unfold monitor_destroy; split <;> rfl

theorem monitor_destroy_count (m : monitor_t) :
    (monitor_destroy m).count = m.count := by
  unfold monitor_destroy; split <;> rfl

theorem monitor_destroy_in (m : monitor_t) :
    (monitor_destroy m).in_ = m.in_ := by
  unfold monitor_destroy; split <;> rfl

theorem monitor_destroy_out (m : monitor_t) :
    (monitor_destroy m).out = m.out := by
  unfold monitor_destroy; split <;> rfl

theorem monitor_destroy_total_insertions (m : monitor_t) :
    (monitor_destroy m).total_insertions = m.total_insertions := by
  unfold monitor_destroy; split <;> rfl

theorem monitor_destroy_total_removals (m : monitor_t) :
    (monitor_destroy m).total_removals = m.total_removals := by
  unfold monitor_destroy; split <;> rfl

theorem monitor_destroy_total_timeouts (m : monitor_t) :
    (monitor_destroy m).total_timeouts = m.total_timeouts := by
  unfold monitor_destroy; split <;> rfl

theorem monitor_destroy_avg_wait_time (m : monitor_t) :
    (monitor_destroy m).avg_wait_time = m.avg_wait_time := by
  unfold monitor_destroy; split <;> rfl

/-! ### Sequences of operations -/

/-- One call of the public interface, with the environment inputs the
code reads during it. -/
inductive channel_op where
  | op_insert (e : call_env) (item : Int)
  | op_remove (e : call_env) (item_null : Bool)
  | op_destroy
deriving DecidableEq, Repr

/-- The state after one call (call results are dropped here; the
per-call lemmas above describe them). -/
def op_step : channel_op → monitor_t → monitor_t
  | .op_insert e x, m => (monitor_insert e x m).2
  | .op_remove e inull, m => (monitor_remove e inull m).2.2
  | .op_destroy, m => monitor_destroy m

/-- Loop-exit condition of the condition-wait loops: when the buffer
condition held at entry, the loop can only have been left with a nonzero
`ret`.  Every execution of the C code satisfies this. -/
def op_wf : channel_op → monitor_t → Bool
  | .op_insert e _, m => (m.count != BUFFER_SIZE) || (e.wait_ret != 0)
  | .op_remove e _, m => (m.count != 0) || (e.wait_ret != 0)
  | .op_destroy, _ => true

/-- `op_wf` holds along the whole trace. -/
def wf_trace : List channel_op → monitor_t → Bool
  | [], _ => true
  | op :: ops, m => op_wf op m && wf_trace ops (op_step op m)

/-- State after a sequence of calls. -/
def run_ops : List channel_op → monitor_t → monitor_t
  | [], m => m
  | op :: ops, m => run_ops ops (op_step op m)

/-- The inductive state invariant behind C1 and C5: the logical length is
between 0 and the capacity, and the successful-operation counters track
it exactly. -/
def good (m : monitor_t) : Prop :=
  0 ≤ m.count ∧ m.count ≤ BUFFER_SIZE ∧
    (m.total_insertions : Int) = (m.total_removals : Int) + m.count

instance (m : monitor_t) : Decidable (good m) := by
  unfold good; infer_instance

theorem step_good (op : channel_op) (m : monitor_t)
    (hwf : op_wf op m = true) (hg : good m) : good (op_step op m) := by
  obtain ⟨h0, h1, h2⟩ := hg
  cases op with
  | op_insert e x =>
      cases hI : m.initialized with
      | false =>
          simp only [op_step, insert_eq_of_not_initialized e x m hI]
          exact ⟨h0, h1, h2⟩
      | true =>
          cases hL : e.lock_ok with
          | false =>
              simp only [op_step, insert_eq_of_lock_fail e x m hI hL]
              exact ⟨h0, h1, h2⟩
          | true =>
              by_cases hc : m.count = BUFFER_SIZE
              · have hr : e.wait_ret ≠ 0 := by
                  simp [op_wf, hc] at hwf; exact hwf
                simp only [op_step, insert_eq_of_timeout e x m hI hL hc hr,
                  good, pi_adjust_count, pi_adjust_total_insertions,
                  pi_adjust_total_removals]
                exact ⟨h0, h1, h2⟩
              · simp only [op_step, insert_eq_of_success e x m hI hL hc,
                  good, pi_adjust_total_removals]
                refine ⟨by omega, ?_, ?_⟩
                · simp only [BUFFER_SIZE] at h1 hc ⊢; omega
                · push_cast
                  omega
  | op_remove e inull =>
      cases hI : m.initialized with
      | false =>
          simp only [op_step, remove_eq_of_not_initialized e inull m hI]
          exact ⟨h0, h1, h2⟩
      | true =>
          cases inull with
          | true =>
              simp only [op_step, remove_eq_of_null e m hI]
              exact ⟨h0, h1, h2⟩
          | false =>
              cases hL : e.lock_ok with
              | false =>
                  simp only [op_step, remove_eq_of_lock_fail e m hI hL]
                  exact ⟨h0, h1, h2⟩
              | true =>
                  by_cases hc : m.count = 0
                  · have hr : e.wait_ret ≠ 0 := by
                      simp [op_wf, hc] at hwf; exact hwf
                    simp only [op_step, remove_eq_of_timeout e m hI hL hc hr,
                      good, pi_adjust_count, pi_adjust_total_insertions,
                      pi_adjust_total_removals]
                    exact ⟨h0, h1, h2⟩
                  · simp only [op_step, remove_eq_of_success e m hI hL hc,
                      good, pi_adjust_total_insertions]
                    refine ⟨by omega, by omega, ?_⟩
                    push_cast
                    omega
  | op_destroy =>
      simp only [op_step, good, monitor_destroy_count,
        monitor_destroy_total_insertions, monitor_destroy_total_removals]
      exact ⟨h0, h1, h2⟩

theorem run_good (ops : List channel_op) :
    ∀ m : monitor_t, good m → wf_trace ops m = true → good (run_ops ops m) := by
  induction ops with
  | nil => intro m hg _; exact hg
  | cons op ops ih =>
      intro m hg hwf
      rw [wf_trace, Bool.and_eq_true] at hwf
      exact ih _ (step_good op m hwf.1 hg) hwf.2

theorem init_state_good : good init_state := by decide

/-! ### The circular buffer as a FIFO queue -/

/-- Structural invariant of the circular buffer: the array has its
declared length, the indices are in range, and `in` is where the next
item goes, `count` positions after `out`. -/
def ring_inv (m : monitor_t) : Prop :=
  m.buffer.length = 10 ∧ 0 ≤ m.out ∧ m.out < BUFFER_SIZE ∧
    0 ≤ m.count ∧ m.count ≤ BUFFER_SIZE ∧
    m.in_ = (m.out + m.count) % BUFFER_SIZE

instance (m : monitor_t) : Decidable (ring_inv m) := by
  unfold ring_inv; infer_instance

/-- The logical FIFO contents of the buffer: `count` items starting at
`out`, read circularly. -/
def queue_of (m : monitor_t) : List Int :=
  (List.range m.count.toNat).map
    (fun (i : Nat) => m.buffer.getD ((m.out + (i : Int)) % BUFFER_SIZE).toNat 0)

theorem buffer_getD_set_ne (l : List Int) (a b : Nat) (x d : Int)
    (h : a ≠ b) : (l.set a x).getD b d = l.getD b d := by
  induction l generalizing a b with
  | nil => rfl
  | cons y l ih =>
      cases a with
      | zero =>
          cases b with
          | zero => exact absurd rfl h
          | succ b => rfl
      | succ a =>
          cases b with
          | zero => rfl
          | succ b =>
              simp only [List.set_cons_succ, List.getD_cons_succ]
              exact ih a b (by omega)

theorem buffer_getD_set_self (l : List Int) (a : Nat) (x d : Int)
    (h : a < l.length) : (l.set a x).getD a d = x := by
  induction l generalizing a with
  | nil => simp at h
  | cons y l ih =>
      cases a with
      | zero => rfl
      | succ a =>
          simp only [List.set_cons_succ, List.getD_cons_succ]
          exact ih a (by simpa using h)

/-- A successful insert appends the item at the logical tail. -/
theorem queue_of_insert (e : call_env) (x : Int) (m : monitor_t)
    (hi : m.initialized = true) (hl : e.lock_ok = true)
    (hr : ring_inv m) (hcnt : m.count < BUFFER_SIZE) :
    (monitor_insert e x m).1 = .MONITOR_SUCCESS ∧
    ring_inv (monitor_insert e x m).2 ∧
    (monitor_insert e x m).2.initialized = true ∧
    (monitor_insert e x m).2.count = m.count + 1 ∧
    queue_of (monitor_insert e x m).2 = queue_of m ++ [x] := by
  obtain ⟨hlen, hout0, hout1, hc0, hc1, hin⟩ := hr
  simp only [BUFFER_SIZE] at hout1 hc1 hin hcnt
  have hc : m.count ≠ BUFFER_SIZE := by simp only [BUFFER_SIZE]; omega
  rw [insert_eq_of_success e x m hi hl hc]
  refine ⟨rfl, ?_, ?_, rfl, ?_⟩
  · refine ⟨?_, ?_, ?_, ?_, ?_, ?_⟩ <;>
      simp only [pi_adjust_out, pi_adjust_initialized, List.length_set,
        BUFFER_SIZE] <;> omega
  · simp [pi_adjust_initialized, hi]
  · simp only [queue_of, pi_adjust_out]
    have htn : (m.count + 1).toNat = m.count.toNat + 1 := by omega
    rw [htn, List.range_succ, List.map_append]
    congr 1
    · apply List.map_congr_left
      intro i hi2
      rw [List.mem_range] at hi2
      have hi3 : (i : Int) < m.count := by omega
      apply buffer_getD_set_ne
      simp only [BUFFER_SIZE]
      omega
    · simp only [List.map_cons, List.map_nil]
      congr 1
      have hidx : ((m.out + ((m.count.toNat : Nat) : Int)) % BUFFER_SIZE).toNat
          = m.in_.toNat := by
        simp only [BUFFER_SIZE]; omega
      rw [hidx]
      apply buffer_getD_set_self
      omega

/-- A successful remove pops the item at the logical head. -/
theorem queue_of_remove (e : call_env) (m : monitor_t)
    (hi : m.initialized = true) (hl : e.lock_ok = true)
    (hr : ring_inv m) (hcnt : 0 < m.count) :
    (monitor_remove e false m).1 = .MONITOR_SUCCESS ∧
    (monitor_remove e false m).2.1 = some (m.buffer.getD m.out.toNat 0) ∧
    ring_inv (monitor_remove e false m).2.2 ∧
    (monitor_remove e false m).2.2.initialized = true ∧
    (monitor_remove e false m).2.2.count = m.count - 1 ∧
    queue_of m =
      m.buffer.getD m.out.toNat 0 :: queue_of (monitor_remove e false m).2.2 := by
  obtain ⟨hlen, hout0, hout1, hc0, hc1, hin⟩ := hr
  simp only [BUFFER_SIZE] at hout1 hc1 hin
  have hc : m.count ≠ 0 := by omega
  rw [remove_eq_of_success e m hi hl hc]
  refine ⟨rfl, rfl, ?_, ?_, rfl, ?_⟩
  · refine ⟨?_, ?_, ?_, ?_, ?_, ?_⟩ <;>
      simp only [pi_adjust_buffer, pi_adjust_in, List.length_set,
        BUFFER_SIZE] <;> omega
  · simp [pi_adjust_initialized, hi]
  · simp only [queue_of, pi_adjust_buffer]
    have htn : m.count.toNat = (m.count - 1).toNat + 1 := by omega
    rw [htn, List.range_succ_eq_map, List.map_cons, List.map_map]
    congr 1
    · congr 1
      simp only [BUFFER_SIZE]
      omega
    · apply List.map_congr_left
      intro i hi2
      rw [List.mem_range] at hi2
      simp only [Function.comp]
      congr 2
      simp only [BUFFER_SIZE]
      push_cast
      omega

/-- A sequence of inserts with the given environments and items. -/
def run_inserts : List (call_env × Int) → monitor_t → monitor_t
  | [], m => m
  | p :: ps, m => run_inserts ps (monitor_insert p.1 p.2 m).2

/-- A sequence of removes; collects what each call wrote through its
`item` pointer. -/
def run_removes : List call_env → monitor_t → List (Option Int) × monitor_t
  | [], m => ([], m)
  | e :: es, m =>
      let r := monitor_remove e false m
      let q := run_removes es r.2.2
      (r.2.1 :: q.1, q.2)

theorem run_inserts_spec (ps : List (call_env × Int)) :
    ∀ m : monitor_t, ring_inv m → m.initialized = true →
    (∀ p ∈ ps, p.1.lock_ok = true) →
    m.count + (ps.length : Int) ≤ BUFFER_SIZE →
    ring_inv (run_inserts ps m) ∧
    (run_inserts ps m).initialized = true ∧
    (run_inserts ps m).count = m.count + (ps.length : Int) ∧
    queue_of (run_inserts ps m) = queue_of m ++ ps.map Prod.snd := by
  induction ps with
  | nil =>
      intro m h1 h2 _ _
      exact ⟨h1, h2, by simp [run_inserts], by simp [run_inserts]⟩
  | cons p ps ih =>
      intro m h1 h2 hlk hcap
      have hcnt : m.count < BUFFER_SIZE := by
        simp only [List.length_cons] at hcap
        push_cast at hcap
        have := h1.2.2.2.1
        omega
      have hq := queue_of_insert p.1 p.2 m h2 (hlk p (by simp)) h1 hcnt
      obtain ⟨hs, hr1, hi1, hc1, hqq⟩ := hq
      have hrec := ih (monitor_insert p.1 p.2 m).2 hr1 hi1
        (fun q hqmem => hlk q (by simp [hqmem]))
        (by rw [hc1]; simp only [List.length_cons] at hcap; push_cast at hcap ⊢; omega)
      obtain ⟨hr2, hi2, hc2, hq2⟩ := hrec
      refine ⟨hr2, hi2, ?_, ?_⟩
      · rw [run_inserts, hc2, hc1]
        simp only [List.length_cons]
        push_cast
        ring
      · rw [run_inserts, hq2, hqq]
        simp

theorem run_removes_spec (es : List call_env) :
    ∀ m : monitor_t, ring_inv m → m.initialized = true →
    (∀ e ∈ es, e.lock_ok = true) →
    (es.length : Int) ≤ m.count →
    ring_inv (run_removes es m).2 ∧
    (run_removes es m).2.initialized = true ∧
    (run_removes es m).2.count = m.count - (es.length : Int) ∧
    (run_removes es m).1 = ((queue_of m).take es.length).map some := by
  induction es with
  | nil =>
      intro m h1 h2 _ _
      exact ⟨h1, h2, by simp [run_removes], by simp [run_removes]⟩
  | cons e es ih =>
      intro m h1 h2 hlk hcap
      have hcnt : 0 < m.count := by
        simp only [List.length_cons] at hcap
        push_cast at hcap
        omega
      have hq := queue_of_remove e m h2 (hlk e (by simp)) h1 hcnt
      obtain ⟨hs, hitem, hr1, hi1, hc1, hqq⟩ := hq
      have hrec := ih (monitor_remove e false m).2.2 hr1 hi1
        (fun q hqmem => hlk q (by simp [hqmem]))
        (by rw [hc1]; simp only [List.length_cons] at hcap; push_cast at hcap ⊢; omega)
      obtain ⟨hr2, hi2, hc2, hq2⟩ := hrec
      refine ⟨hr2, hi2, ?_, ?_⟩
      · rw [run_removes, hc2, hc1]
        simp only [List.length_cons]
        push_cast
        ring
      · rw [run_removes]
        simp only [hitem, hq2, hqq, List.take_succ_cons, List.map_cons,
          List.length_cons]

theorem init_state_ring_inv : ring_inv init_state := by decide

/-! ### Concrete states and environments used by witnesses and
counterexamples -/

/-- The state after filling the buffer to capacity with items 1..10. -/
def full_state : monitor_t :=
  run_inserts [(env0, 1), (env0, 2), (env0, 3), (env0, 4), (env0, 5),
    (env0, 6), (env0, 7), (env0, 8), (env0, 9), (env0, 10)] init_state

/-- A short demonstration trace: two inserts, one remove, destroy. -/
def demo_ops : List channel_op :=
  [.op_insert env0 4, .op_insert env0 7, .op_remove env0 false, .op_destroy]

/-- The state holding exactly one item, 42. -/
def one_item_state : monitor_t := (monitor_insert env0 42 init_state).2

/-- `one_item_state` after `monitor_destroy`. -/
def destroyed_state : monitor_t := monitor_destroy one_item_state

/-- The errno value `pthread_cond_timedwait` returns on expiry (Linux);
not defined by the repository, given here only to distinguish the
timeout code from other failure codes. -/
def ETIMEDOUT : Int := 110

/-- A call whose condition wait fails with EINVAL (22), a non-timeout
primitive failure. -/
def env_fail_wait : call_env := { env0 with wait_ret := 22 }

/-- A call whose `pthread_mutex_lock` fails. -/
def env_no_lock : call_env := { env0 with lock_ok := false }

/-- A call with measured wait duration 2. -/
def c7_env_w2 : call_env := { env0 with wait_time := 2 }

/-- Insert with wait duration 2, then remove with wait duration 0. -/
def c7_s1 : monitor_t := (monitor_insert c7_env_w2 5 init_state).2

def c7_s2 : monitor_t := (monitor_remove env0 false c7_s1).2.2

/-- All eight outcomes of the three primitive initializations. -/
def all_prim_outcomes : List (Bool × Bool × Bool) :=
  [(false, false, false), (false, false, true), (false, true, false),
   (false, true, true), (true, false, false), (true, false, true),
   (true, true, false), (true, true, true)]

/-! ### The claims -/

/-- C1: Capacity invariant: along every well-formed trace of operations
from the initialized state the logical length `count` stays in
`[0, BUFFER_SIZE]`; moreover a `monitor_insert` can only return success
when `count < BUFFER_SIZE` held at entry, and a `monitor_remove` only
when `count > 0` held at entry, so the successful operations are exactly
the ones that keep the length in range. -/
theorem C1_capacity_invariant :
    (∀ ops : List channel_op, wf_trace ops init_state = true →
        0 ≤ (run_ops ops init_state).count ∧
          (run_ops ops init_state).count ≤ BUFFER_SIZE) ∧
    (∀ (e : call_env) (x : Int) (m : monitor_t),
        op_wf (.op_insert e x) m = true → m.count ≤ BUFFER_SIZE →
        (monitor_insert e x m).1 = .MONITOR_SUCCESS → m.count < BUFFER_SIZE) ∧
    (∀ (e : call_env) (inull : Bool) (m : monitor_t),
        op_wf (.op_remove e inull) m = true → 0 ≤ m.count →
        (monitor_remove e inull m).1 = .MONITOR_SUCCESS → 0 < m.count) := by
  refine ⟨?_, ?_, ?_⟩
  · intro ops h
    have hg := run_good ops init_state init_state_good h
    exact ⟨hg.1, hg.2.1⟩
  · intro e x m hwf h1 hs
    cases hI : m.initialized with
    | false =>
        rw [insert_eq_of_not_initialized e x m hI] at hs
        simp at hs
    | true =>
        cases hL : e.lock_ok with
        | false =>
            rw [insert_eq_of_lock_fail e x m hI hL] at hs
            simp at hs
        | true =>
            by_cases hc : m.count = BUFFER_SIZE
            · have hr : e.wait_ret ≠ 0 := by
                simp [op_wf, hc] at hwf; exact hwf
              rw [insert_eq_of_timeout e x m hI hL hc hr] at hs
              simp at hs
            · simp only [BUFFER_SIZE] at h1 hc ⊢
              omega
  · intro e inull m hwf h0 hs
    cases hI : m.initialized with
    | false =>
        rw [remove_eq_of_not_initialized e inull m hI] at hs
        simp at hs
    | true =>
        cases inull with
        | true =>
            rw [remove_eq_of_null e m hI] at hs
            simp at hs
        | false =>
            cases hL : e.lock_ok with
            | false =>
                rw [remove_eq_of_lock_fail e m hI hL] at hs
                simp at hs
            | true =>
                by_cases hc : m.count = 0
                · have hr : e.wait_ret ≠ 0 := by
                    simp [op_wf, hc] at hwf; exact hwf
                  rw [remove_eq_of_timeout e m hI hL hc hr] at hs
                  simp at hs
                · omega

theorem C1_capacity_invariant_witness :
    0 ≤ (run_ops demo_ops init_state).count ∧
      (run_ops demo_ops init_state).count ≤ BUFFER_SIZE :=
  C1_capacity_invariant.1 demo_ops (by decide)

/-- C2: FIFO round trip: from any empty, initialized, well-formed state,
performing k successful inserts of items x1..xk (k at most the capacity)
and then k removes returns exactly x1..xk in insertion order. -/
theorem C2_fifo_round_trip (ps : List (call_env × Int)) (es : List call_env)
    (m : monitor_t) (hr : ring_inv m) (hi : m.initialized = true)
    (hc : m.count = 0) (hlen : (ps.length : Int) ≤ BUFFER_SIZE)
    (hlk1 : ∀ p ∈ ps, p.1.lock_ok = true)
    (hlk2 : ∀ e ∈ es, e.lock_ok = true)
    (heq : es.length = ps.length) :
    (run_removes es (run_inserts ps m)).1 = (ps.map Prod.snd).map some := by
  obtain ⟨hr1, hi1, hc1, hq1⟩ :=
    run_inserts_spec ps m hr hi hlk1 (by omega)
  have hq0 : queue_of m = [] := by
    simp [queue_of, hc]
  obtain ⟨_, _, _, hout⟩ :=
    run_removes_spec es (run_inserts ps m) hr1 hi1 hlk2
      (by rw [hc1, hc, heq]; simp)
  rw [hout, hq1, hq0, List.nil_append, heq]
  have hml : (ps.map Prod.snd).length = ps.length := List.length_map _ _
  rw [← hml, List.take_length]

theorem C2_fifo_round_trip_witness :
    (run_removes [env0, env0, env0]
        (run_inserts [(env0, 3), (env0, 7), (env0, 9)] init_state)).1 =
      [some 3, some 7, some 9] := by
  have h := C2_fifo_round_trip [(env0, 3), (env0, 7), (env0, 9)]
    [env0, env0, env0] init_state (by decide) (by decide) (by decide)
    (by decide) (by decide) (by decide) (by decide)
  simpa using h

/-- C3 (counterexample): the code has no `closed` flag and no `close()`
that lets a consumer drain remaining items; `monitor_destroy` of a
nonempty monitor marks it uninitialized, after which `monitor_remove`
returns `MONITOR_ERROR_MUTEX_INIT` at once instead of the buffered
item. -/
theorem C3_closed_counterexample :
    destroyed_state.count = 1 ∧
    (monitor_remove env0 false destroyed_state).1 =
      .MONITOR_ERROR_MUTEX_INIT ∧
    (monitor_remove env0 false destroyed_state).2.1 = none := by decide

/-- C3 (amended): `monitor_destroy` is idempotent and sets
`initialized := false` without touching the buffer, the indices or the
counters; on an initialized monitor it frees the waiter list (without
waking anyone); afterwards every `monitor_insert` and `monitor_remove`
returns `MONITOR_ERROR_MUTEX_INIT` immediately, leaving the state
unchanged, even when the buffer is nonempty. -/
theorem C3_destroy_semantics :
    (∀ m : monitor_t,
        monitor_destroy (monitor_destroy m) = monitor_destroy m) ∧
    (∀ m : monitor_t, (monitor_destroy m).initialized = false) ∧
    (∀ m : monitor_t,
        (monitor_destroy m).buffer = m.buffer ∧
        (monitor_destroy m).count = m.count ∧
        (monitor_destroy m).in_ = m.in_ ∧
        (monitor_destroy m).out = m.out ∧
        (monitor_destroy m).total_insertions = m.total_insertions ∧
        (monitor_destroy m).total_removals = m.total_removals ∧
        (monitor_destroy m).total_timeouts = m.total_timeouts ∧
        (monitor_destroy m).avg_wait_time = m.avg_wait_time) ∧
    (∀ m : monitor_t, m.initialized = true →
        (monitor_destroy m).waiting_threads = []) ∧
    (∀ (e : call_env) (x : Int) (m : monitor_t),
        monitor_insert e x (monitor_destroy m) =
          (.MONITOR_ERROR_MUTEX_INIT, monitor_destroy m)) ∧
    (∀ (e : call_env) (inull : Bool) (m : monitor_t),
        monitor_remove e inull (monitor_destroy m) =
          (.MONITOR_ERROR_MUTEX_INIT, none, monitor_destroy m)) := by
  have hinit : ∀ m : monitor_t, (monitor_destroy m).initialized = false := by
    intro m
    cases hI : m.initialized <;> simp [monitor_destroy, hI]
  refine ⟨?_, hinit, ?_, ?_, ?_, ?_⟩
  · intro m
    cases hI : m.initialized <;> simp [monitor_destroy, hI]
  · intro m
    exact ⟨monitor_destroy_buffer m, monitor_destroy_count m,
      monitor_destroy_in m, monitor_destroy_out m,
      monitor_destroy_total_insertions m, monitor_destroy_total_removals m,
      monitor_destroy_total_timeouts m, monitor_destroy_avg_wait_time m⟩
  · intro m hI
    simp [monitor_destroy, hI]
  · intro e x m
    exact insert_eq_of_not_initialized e x (monitor_destroy m) (hinit m)
  · intro e inull m
    exact remove_eq_of_not_initialized e inull (monitor_destroy m) (hinit m)

theorem C3_destroy_semantics_witness :
    monitor_destroy (monitor_destroy one_item_state) =
        monitor_destroy one_item_state ∧
      (monitor_destroy one_item_state).waiting_threads = [] :=
  ⟨C3_destroy_semantics.1 one_item_state,
    C3_destroy_semantics.2.2.2.1 one_item_state (by decide)⟩

/-- C4: Timeout atomicity: a timed-out `monitor_insert` (full buffer,
nonzero wait exit) and a timed-out `monitor_remove` (empty buffer,
nonzero wait exit) return `MONITOR_ERROR_TIMEOUT`, add exactly 1 to
`total_timeouts`, and leave the buffer contents, `count`, `in`, `out`,
`total_insertions` and `total_removals` unchanged. -/
theorem C4_timeout_atomicity :
    (∀ (e : call_env) (x : Int) (m : monitor_t),
        m.initialized = true → e.lock_ok = true → m.count = BUFFER_SIZE →
        e.wait_ret ≠ 0 →
        (monitor_insert e x m).1 = .MONITOR_ERROR_TIMEOUT ∧
        (monitor_insert e x m).2.buffer = m.buffer ∧
        (monitor_insert e x m).2.count = m.count ∧
        (monitor_insert e x m).2.in_ = m.in_ ∧
        (monitor_insert e x m).2.out = m.out ∧
        (monitor_insert e x m).2.total_insertions = m.total_insertions ∧
        (monitor_insert e x m).2.total_removals = m.total_removals ∧
        (monitor_insert e x m).2.total_timeouts = m.total_timeouts + 1) ∧
    (∀ (e : call_env) (m : monitor_t),
        m.initialized = true → e.lock_ok = true → m.count = 0 →
        e.wait_ret ≠ 0 →
        (monitor_remove e false m).1 = .MONITOR_ERROR_TIMEOUT ∧
        (monitor_remove e false m).2.1 = none ∧
        (monitor_remove e false m).2.2.buffer = m.buffer ∧
        (monitor_remove e false m).2.2.count = m.count ∧
        (monitor_remove e false m).2.2.in_ = m.in_ ∧
        (monitor_remove e false m).2.2.out = m.out ∧
        (monitor_remove e false m).2.2.total_insertions = m.total_insertions ∧
        (monitor_remove e false m).2.2.total_removals = m.total_removals ∧
        (monitor_remove e false m).2.2.total_timeouts = m.total_timeouts + 1) := by
  refine ⟨?_, ?_⟩
  · intro e x m hi hl hc hr
    rw [insert_eq_of_timeout e x m hi hl hc hr]
    simp [pi_adjust_buffer, pi_adjust_count, pi_adjust_in, pi_adjust_out,
      pi_adjust_total_insertions, pi_adjust_total_removals]
  · intro e m hi hl hc hr
    rw [remove_eq_of_timeout e m hi hl hc hr]
    simp [pi_adjust_buffer, pi_adjust_count, pi_adjust_in, pi_adjust_out,
      pi_adjust_total_insertions, pi_adjust_total_removals]

theorem C4_timeout_atomicity_witness :
    (monitor_insert env0 5 full_state).1 = .MONITOR_ERROR_TIMEOUT ∧
      (monitor_remove env0 false init_state).1 = .MONITOR_ERROR_TIMEOUT :=
  ⟨(C4_timeout_atomicity.1 env0 5 full_state (by decide) (by decide)
      (by decide) (by decide)).1,
    (C4_timeout_atomicity.2 env0 init_state (by decide) (by decide)
      (by decide) (by decide)).1⟩

/-- C5: Stats consistency: in every state reachable by a well-formed
trace from the initialized state, `total_insertions - total_removals`
equals the current logical buffer length `count`. -/
theorem C5_stats_consistency (ops : List channel_op)
    (h : wf_trace ops init_state = true) :
    ((run_ops ops init_state).total_insertions : Int) =
      ((run_ops ops init_state).total_removals : Int) +
        (run_ops ops init_state).count :=
  (run_good ops init_state init_state_good h).2.2

theorem C5_stats_consistency_witness :
    ((run_ops demo_ops init_state).total_insertions : Int) =
      ((run_ops demo_ops init_state).total_removals : Int) +
        (run_ops demo_ops init_state).count :=
  C5_stats_consistency demo_ops (by decide)

/-- C6 (counterexample): construction takes no capacity parameter: over
every outcome of its primitives `monitor_init` returns only
`MONITOR_SUCCESS`, `MONITOR_ERROR_MUTEX_INIT` or
`MONITOR_ERROR_COND_INIT`, and the complete error enumeration carries the
codes 0, -1, -2, -3, -4, -5 — there is no distinct InvalidCapacity error
anywhere, so no capacity <= 0 can be rejected with one. -/
theorem C6_no_invalid_capacity_counterexample :
    (all_prim_outcomes.all (fun t =>
        decide ((monitor_init t.1 t.2.1 t.2.2 monitor_zero).1 =
            .MONITOR_SUCCESS ∨
          (monitor_init t.1 t.2.1 t.2.2 monitor_zero).1 =
            .MONITOR_ERROR_MUTEX_INIT ∨
          (monitor_init t.1 t.2.1 t.2.2 monitor_zero).1 =
            .MONITOR_ERROR_COND_INIT))) = true ∧
    ([monitor_error_t.MONITOR_SUCCESS, .MONITOR_ERROR_MUTEX_INIT,
        .MONITOR_ERROR_COND_INIT, .MONITOR_ERROR_MUTEX_LOCK,
        .MONITOR_ERROR_NULL_POINTER, .MONITOR_ERROR_TIMEOUT].map
      monitor_error_t.code) = [0, -1, -2, -3, -4, -5] := by decide

/-- C6 (amended): the capacity is the fixed constant `BUFFER_SIZE = 10`
(which is positive), not a construction parameter; `monitor_init` with
all primitives succeeding yields an empty channel — zero `count` and
indices, `initialized = true`, zeroed stats, empty waiter list. -/
theorem C6_construction (m : monitor_t) :
    monitor_init true true true m =
      (.MONITOR_SUCCESS,
        { m with
            count := 0, in_ := 0, out := 0, initialized := true,
            waiting_threads := [], waiting_count := 0,
            deadlock_threshold := 5, total_insertions := 0,
            total_removals := 0, total_timeouts := 0,
            avg_wait_time := 0 }) ∧
    BUFFER_SIZE = 10 ∧ 0 < BUFFER_SIZE := by
  refine ⟨rfl, rfl, by decide⟩

/-- C7 (counterexample): one insert with wait duration 2 and one remove
with wait duration 0 leave `avg_wait_time = 0`, not the overall mean 1 of
the two wait durations: remove divides by `total_removals` alone. -/
theorem C7_running_mean_counterexample :
    c7_s2.total_insertions = 1 ∧ c7_s2.total_removals = 1 ∧
    c7_s2.avg_wait_time = 0 ∧ ((2 : ℚ) + 0) / 2 = 1 ∧ (0 : ℚ) ≠ 1 := by
  have h1 := insert_eq_of_success c7_env_w2 5 init_state (by decide)
    (by decide) (by decide)
  have ha : c7_s1.avg_wait_time = 2 := by
    have e1 : init_state.avg_wait_time = 0 := by decide
    have e2 : init_state.total_insertions = 0 := by decide
    show (monitor_insert c7_env_w2 5 init_state).2.avg_wait_time = 2
    rw [h1]
    simp only [e1, e2]
    norm_num [c7_env_w2, env0]
  have hb := remove_eq_of_success env0 c7_s1 (by decide) (by decide)
    (by decide)
  have hcavg : c7_s2.avg_wait_time = 0 := by
    have f1 : c7_s1.total_removals = 0 := by decide
    show (monitor_remove env0 false c7_s1).2.2.avg_wait_time = 0
    rw [hb]
    simp only [ha, f1]
    norm_num [env0]
  exact ⟨by decide, by decide, hcavg, by norm_num, by norm_num⟩

/-- C7 (amended): each successful insert updates the shared running
average with this call's wait duration divided over `total_insertions`,
and each successful remove divides over `total_removals`; the two roles
use different divisors, so only single-role sequences average their own
wait durations. -/
theorem C7_avg_update :
    (∀ (e : call_env) (x : Int) (m : monitor_t),
        m.initialized = true → e.lock_ok = true → m.count ≠ BUFFER_SIZE →
        (monitor_insert e x m).2.avg_wait_time =
          (m.avg_wait_time * (m.total_insertions : ℚ) + e.wait_time) /
            ((m.total_insertions : ℚ) + 1) ∧
        (monitor_insert e x m).2.total_insertions = m.total_insertions + 1) ∧
    (∀ (e : call_env) (m : monitor_t),
        m.initialized = true → e.lock_ok = true → m.count ≠ 0 →
        (monitor_remove e false m).2.2.avg_wait_time =
          (m.avg_wait_time * (m.total_removals : ℚ) + e.wait_time) /
            ((m.total_removals : ℚ) + 1) ∧
        (monitor_remove e false m).2.2.total_removals = m.total_removals + 1) := by
  refine ⟨?_, ?_⟩
  · intro e x m hi hl hc
    rw [insert_eq_of_success e x m hi hl hc]
    constructor
    · simp only []
      ring_nf
    · rfl
  · intro e m hi hl hc
    rw [remove_eq_of_success e m hi hl hc]
    constructor
    · simp only []
      ring_nf
    · rfl

theorem C7_avg_update_witness :
    (monitor_insert c7_env_w2 5 init_state).2.avg_wait_time =
      (init_state.avg_wait_time * (init_state.total_insertions : ℚ) +
          c7_env_w2.wait_time) / ((init_state.total_insertions : ℚ) + 1) :=
  (C7_avg_update.1 c7_env_w2 5 init_state (by decide) (by decide)
    (by decide)).1

/-- C8 (counterexample): on a full buffer, a condition-wait failure with
code 22 (EINVAL — not the timeout code 110) is reported as
`MONITOR_ERROR_TIMEOUT` and counted in `total_timeouts`: wait-primitive
failures are not distinguished from timeouts. -/
theorem C8_internal_failure_counterexample :
    env_fail_wait.wait_ret ≠ ETIMEDOUT ∧
    (monitor_insert env_fail_wait 5 full_state).1 =
      .MONITOR_ERROR_TIMEOUT ∧
    (monitor_insert env_fail_wait 5 full_state).2.total_timeouts =
      full_state.total_timeouts + 1 := by decide

/-- C8 (amended): a `pthread_mutex_lock` failure does propagate as the
distinct `MONITOR_ERROR_MUTEX_LOCK` and leaves the state (including
`total_timeouts`) untouched, but any nonzero condition-wait exit —
timeout or internal failure alike — is reported as
`MONITOR_ERROR_TIMEOUT` and counted in `total_timeouts`. -/
theorem C8_error_paths :
    (∀ (e : call_env) (x : Int) (m : monitor_t),
        m.initialized = true → e.lock_ok = false →
        monitor_insert e x m = (.MONITOR_ERROR_MUTEX_LOCK, m)) ∧
    (∀ (e : call_env) (m : monitor_t),
        m.initialized = true → e.lock_ok = false →
        monitor_remove e false m = (.MONITOR_ERROR_MUTEX_LOCK, none, m)) ∧
    (∀ (e : call_env) (x : Int) (m : monitor_t),
        m.initialized = true → e.lock_ok = true → m.count = BUFFER_SIZE →
        e.wait_ret ≠ 0 →
        (monitor_insert e x m).1 = .MONITOR_ERROR_TIMEOUT ∧
        (monitor_insert e x m).2.total_timeouts = m.total_timeouts + 1) ∧
    (∀ (e : call_env) (m : monitor_t),
        m.initialized = true → e.lock_ok = true → m.count = 0 →
        e.wait_ret ≠ 0 →
        (monitor_remove e false m).1 = .MONITOR_ERROR_TIMEOUT ∧
        (monitor_remove e false m).2.2.total_timeouts = m.total_timeouts + 1) := by
  refine ⟨?_, ?_, ?_, ?_⟩
  · intro e x m hi hl
    exact insert_eq_of_lock_fail e x m hi hl
  · intro e m hi hl
    exact remove_eq_of_lock_fail e m hi hl
  · intro e x m hi hl hc hr
    rw [insert_eq_of_timeout e x m hi hl hc hr]
    exact ⟨rfl, rfl⟩
  · intro e m hi hl hc hr
    rw [remove_eq_of_timeout e m hi hl hc hr]
    exact ⟨rfl, rfl⟩

theorem C8_error_paths_witness :
    monitor_insert env_no_lock 5 init_state =
      (.MONITOR_ERROR_MUTEX_LOCK, init_state) :=
  C8_error_paths.1 env_no_lock 5 init_state (by decide) (by decide)

/-- C9: Waiter deregistration: every `monitor_insert` and
`monitor_remove` call leaves the waiting-thread list and
`waiting_count` exactly as it found them — a call that registers itself
deregisters its own (front) entry on every exit path, and the early-exit
paths never register at all. -/
theorem C9_waiter_deregistration :
    (∀ (e : call_env) (x : Int) (m : monitor_t),
        (monitor_insert e x m).2.waiting_threads = m.waiting_threads ∧
        (monitor_insert e x m).2.waiting_count = m.waiting_count) ∧
    (∀ (e : call_env) (inull : Bool) (m : monitor_t),
        (monitor_remove e inull m).2.2.waiting_threads = m.waiting_threads ∧
        (monitor_remove e inull m).2.2.waiting_count = m.waiting_count) := by
  refine ⟨?_, ?_⟩
  · intro e x m
    cases hI : m.initialized with
    | false => rw [insert_eq_of_not_initialized e x m hI]; exact ⟨rfl, rfl⟩
    | true =>
        cases hL : e.lock_ok with
        | false => rw [insert_eq_of_lock_fail e x m hI hL]; exact ⟨rfl, rfl⟩
        | true =>
            simp only [monitor_insert, hI, hL, Bool.not_true,
              Bool.false_eq_true, if_false, add_then_remove,
              add_waiting_thread_count]
            constructor <;> (repeat' split) <;>
              simp [pi_adjust_waiting_threads, pi_adjust_waiting_count]
  · intro e inull m
    cases hI : m.initialized with
    | false =>
        rw [remove_eq_of_not_initialized e inull m hI]; exact ⟨rfl, rfl⟩
    | true =>
        cases inull with
        | true => rw [remove_eq_of_null e m hI]; exact ⟨rfl, rfl⟩
        | false =>
            cases hL : e.lock_ok with
            | false =>
                rw [remove_eq_of_lock_fail e m hI hL]; exact ⟨rfl, rfl⟩
            | true =>
                simp only [monitor_remove, hI, hL, Bool.not_true,
                  Bool.false_eq_true, if_false, add_then_remove,
                  add_waiting_thread_count]
                constructor <;> (repeat' split) <;>
                  simp [pi_adjust_waiting_threads, pi_adjust_waiting_count]

/-- C10: a `monitor_remove` with a NULL item pointer on an initialized
monitor returns `MONITOR_ERROR_NULL_POINTER` without consulting the lock
(the result is the same for every lock outcome) and returns the state
completely unchanged. -/
theorem C10_null_pointer (e : call_env) (m : monitor_t)
    (hi : m.initialized = true) :
    monitor_remove e true m = (.MONITOR_ERROR_NULL_POINTER, none, m) :=
  remove_eq_of_null e m hi

theorem C10_null_pointer_witness :
    monitor_remove env_no_lock true init_state =
      (.MONITOR_ERROR_NULL_POINTER, none, init_state) :=
  C10_null_pointer env_no_lock init_state (by decide)

theorem C6_construction_witness :
    monitor_init true true true monitor_zero =
      (.MONITOR_SUCCESS,
        { monitor_zero with
            count := 0, in_ := 0, out := 0, initialized := true,
            waiting_threads := [], waiting_count := 0,
            deadlock_threshold := 5, total_insertions := 0,
            total_removals := 0, total_timeouts := 0,
            avg_wait_time := 0 }) ∧
    BUFFER_SIZE = 10 ∧ 0 < BUFFER_SIZE :=
  C6_construction monitor_zero

theorem C9_waiter_deregistration_witness :
    (monitor_insert env0 5 init_state).2.waiting_threads =
        init_state.waiting_threads ∧
      (monitor_insert env0 5 init_state).2.waiting_count =
        init_state.waiting_count :=
  C9_waiter_deregistration.1 env0 5 init_state
